import Mathlib

/-!
Verification of the crypto-service-provider (CSP) subsystem: the vault
capability interface, the Csp facade, PublicKeyData validation, and the
metrics-instrumented CspRwLock, embedded shallowly from the Rust source.

The vault implementation itself (LocalCspVault, the Ed25519 and
multi-signature primitives, the secret-key store) is not part of the given
sources; those operations are modelled from the spec, as marked in each
doc comment. The Csp facade (lib.rs) is embedded directly.
-/

namespace CspSpec

/-- Algorithm identifiers, from the src tests enumerating all 17 variants
of AlgorithmId with their u8 discriminants. -/
inductive AlgorithmId where
  | Placeholder
  | MultiBls12_381
  | ThresBls12_381
  | SchnorrSecp256k1
  | StaticDhSecp256k1
  | HashSha256
  | Tls
  | Ed25519
  | Secp256k1
  | Groth20_Bls12_381
  | NiDkg_Groth20_Bls12_381
  | EcdsaP256
  | EcdsaSecp256k1
  | IcCanisterSignature
  | RsaSha256
  | ThresholdEcdsaSecp256k1
  | MegaSecp256k1
deriving DecidableEq, Repr

/-- The u8 discriminant of each algorithm id, from AlgorithmId::as_u8 as
pinned down by src/rs/types/types/src/crypto/tests.rs. -/
def AlgorithmId.as_u8 : AlgorithmId → Nat
  | .Placeholder => 0
  | .MultiBls12_381 => 1
  | .ThresBls12_381 => 2
  | .SchnorrSecp256k1 => 3
  | .StaticDhSecp256k1 => 4
  | .HashSha256 => 5
  | .Tls => 6
  | .Ed25519 => 7
  | .Secp256k1 => 8
  | .Groth20_Bls12_381 => 9
  | .NiDkg_Groth20_Bls12_381 => 10
  | .EcdsaP256 => 11
  | .EcdsaSecp256k1 => 12
  | .IcCanisterSignature => 13
  | .RsaSha256 => 14
  | .ThresholdEcdsaSecp256k1 => 15
  | .MegaSecp256k1 => 16

/-- Conversion from an integer discriminant to an AlgorithmId; any unknown
value maps onto Placeholder, from From of i32 for AlgorithmId as pinned
down by src/rs/types/types/src/crypto/tests.rs. -/
def AlgorithmId.fromNat : Nat → AlgorithmId
  | 0 => .Placeholder
  | 1 => .MultiBls12_381
  | 2 => .ThresBls12_381
  | 3 => .SchnorrSecp256k1
  | 4 => .StaticDhSecp256k1
  | 5 => .HashSha256
  | 6 => .Tls
  | 7 => .Ed25519
  | 8 => .Secp256k1
  | 9 => .Groth20_Bls12_381
  | 10 => .NiDkg_Groth20_Bls12_381
  | 11 => .EcdsaP256
  | 12 => .EcdsaSecp256k1
  | 13 => .IcCanisterSignature
  | 14 => .RsaSha256
  | 15 => .ThresholdEcdsaSecp256k1
  | 16 => .MegaSecp256k1
  | _ => .Placeholder

/-- Modelled from the spec: CspPublicKey is a tagged union over supported
algorithms, each variant holding algorithm-specific fixed-size bytes
(modelled as an opaque Nat). The source shows the Ed25519 and
MultiBls12_381 variants in use. -/
inductive CspPublicKey where
  | Ed25519 (bytes : Nat)
  | MultiBls12_381 (bytes : Nat)
deriving DecidableEq, Repr

/-- Modelled from the spec: a stored secret key entry is an algorithm tag
plus opaque secret bytes, so that a type mismatch is detected without
misinterpreting the payload. -/
inductive CspSecretKey where
  | Ed25519 (bytes : Nat)
  | MultiBls12_381 (bytes : Nat)
deriving DecidableEq, Repr

/-- The variant name of a stored secret key, as reported in the
WrongSecretKeyType error payload of the multi-signature test in src. -/
def CspSecretKey.variantName : CspSecretKey → String
  | .Ed25519 _ => "Ed25519"
  | .MultiBls12_381 _ => "MultiBls12_381"

/-- Modelled from the spec: CspSignature is a tagged union over supported
algorithms. A signature payload is modelled as the pair of the signing
secret and the signed message. -/
inductive CspSignature where
  | Ed25519 (sk : Nat) (msg : List Nat)
  | MultiBls12_381 (sk : Nat) (msg : List Nat)
deriving DecidableEq, Repr

/-- Modelled from the spec: a proof-of-possession accompanying a
multi-signature public key. -/
inductive CspPop where
  | MultiBls12_381 (sk : Nat)
deriving DecidableEq, Repr

/-- KeyId: fixed-size identifier deterministically derived from a public
key canonical encoding; modelled as a Nat. -/
abbrev KeyId : Type := Nat

/-- Modelled from the spec: KeyId derivation from a public key, an
injective deterministic function of the key canonical encoding (identical
public key gives identical KeyId, always). -/
def keyIdFrom : CspPublicKey → KeyId
  | .Ed25519 b => 2 * b
  | .MultiBls12_381 b => 2 * b + 1

/-- Modelled from the spec: the Ed25519 public key derived from a secret
key; the primitive is external, modelled as the identity on the opaque
scalar. -/
def ed25519_pub (sk : Nat) : Nat := sk

/-- Modelled from the spec: Ed25519 signing, a deterministic function of
the secret key and the message. -/
def ed25519_sign (sk : Nat) (msg : List Nat) : CspSignature :=
  .Ed25519 sk msg

/-- Modelled from the spec: Ed25519 verification accepts exactly the
signature that signing with the matching secret key produces. -/
def ed25519_verify (sig : CspSignature) (msg : List Nat) (pk : Nat) : Bool :=
  decide (sig = ed25519_sign pk msg)

/-- Modelled from the spec: multi-signature (BLS) signing, a deterministic
function of the secret key and the message. -/
def multi_bls_sign (sk : Nat) (msg : List Nat) : CspSignature :=
  .MultiBls12_381 sk msg

/-- Error type of basic-signature key generation, from the vault api uses
in src test utilities. -/
inductive CspBasicSignatureKeygenError where
  | UnsupportedAlgorithm (algorithm : AlgorithmId)
  | InternalError (internal_error : String)
deriving DecidableEq, Repr

/-- Error type of basic-signature signing, from the vault api uses in src
test utilities and the spec error taxonomy. -/
inductive CspBasicSignatureError where
  | SecretKeyNotFound (algorithm : AlgorithmId) (key_id : KeyId)
  | UnsupportedAlgorithm (algorithm : AlgorithmId)
  | WrongSecretKeyType (algorithm : AlgorithmId) (secret_key_variant : String)
deriving DecidableEq, Repr

/-- Error type of multi-signature key generation, from the vault api uses
in src test utilities. -/
inductive CspMultiSignatureKeygenError where
  | UnsupportedAlgorithm (algorithm : AlgorithmId)
  | InternalError (internal_error : String)
deriving DecidableEq, Repr

/-- Error type of multi-signature signing, from the vault api uses in src
test utilities and the spec error taxonomy. -/
inductive CspMultiSignatureError where
  | SecretKeyNotFound (algorithm : AlgorithmId) (key_id : KeyId)
  | UnsupportedAlgorithm (algorithm : AlgorithmId)
  | WrongSecretKeyType (algorithm : AlgorithmId) (secret_key_variant : String)
deriving DecidableEq, Repr

/-- Modelled from the spec: the secret key store, a durable mapping from
KeyId to algorithm-tagged secret keys. -/
structure SecretKeyStore where
  entries : List (Nat × CspSecretKey)
deriving DecidableEq, Repr

/-- Lookup of a KeyId in the store. -/
def SecretKeyStore.lookup (s : SecretKeyStore) (kid : KeyId) : Option CspSecretKey :=
  s.entries.lookup kid

/-- Modelled from the spec: insertion rejects an existing id with
different content as corruption rather than overwriting; inserting the
identical content again is accepted. -/
def SecretKeyStore.insert (s : SecretKeyStore) (kid : KeyId) (key : CspSecretKey) :
    Except String SecretKeyStore :=
  match s.lookup kid with
  | none => .ok ⟨(kid, key) :: s.entries⟩
  | some existing =>
      if existing = key then .ok s
      else .error "inconsistent key store: existing id with different content"

/-- Modelled from the spec: the local vault state, owning the node
secret-key store and a seeded deterministic RNG state (the next scalar to
draw). -/
structure LocalVault where
  sks : SecretKeyStore
  rng : Nat
deriving DecidableEq, Repr

/-- Modelled from the spec: vault key-pair generation (basic signatures,
family Ed25519). Any algorithm outside the family fails with
UnsupportedAlgorithm; on success the secret key is stored before the
public key is returned. -/
def gen_key_pair (v : LocalVault) (alg : AlgorithmId) :
    Except CspBasicSignatureKeygenError (CspPublicKey × LocalVault) :=
  match alg with
  | .Ed25519 =>
      match v.sks.insert (keyIdFrom (CspPublicKey.Ed25519 (ed25519_pub v.rng)))
          (CspSecretKey.Ed25519 v.rng) with
      | .ok sks1 => .ok (CspPublicKey.Ed25519 (ed25519_pub v.rng), ⟨sks1, v.rng + 1⟩)
      | .error e => .error (.InternalError e)
  | a => .error (.UnsupportedAlgorithm a)

/-- Modelled from the spec: vault key-pair generation with
proof-of-possession (family MultiBls12_381). Any algorithm outside the
family fails with UnsupportedAlgorithm. -/
def gen_key_pair_with_pop (v : LocalVault) (alg : AlgorithmId) :
    Except CspMultiSignatureKeygenError ((CspPublicKey × CspPop) × LocalVault) :=
  match alg with
  | .MultiBls12_381 =>
      match v.sks.insert (keyIdFrom (CspPublicKey.MultiBls12_381 v.rng))
          (CspSecretKey.MultiBls12_381 v.rng) with
      | .ok sks1 =>
          .ok ((CspPublicKey.MultiBls12_381 v.rng, CspPop.MultiBls12_381 v.rng),
            ⟨sks1, v.rng + 1⟩)
      | .error e => .error (.InternalError e)
  | a => .error (.UnsupportedAlgorithm a)

/-- Modelled from the spec: vault single-key signing. Fails with
UnsupportedAlgorithm on family mismatch (family Ed25519),
SecretKeyNotFound if the id is absent, WrongSecretKeyType if the stored
key has a different algorithm tag. -/
def sign (v : LocalVault) (alg : AlgorithmId) (msg : List Nat) (kid : KeyId) :
    Except CspBasicSignatureError CspSignature :=
  match alg with
  | .Ed25519 =>
      match v.sks.lookup kid with
      | none => .error (.SecretKeyNotFound alg kid)
      | some (.Ed25519 sk) => .ok (ed25519_sign sk msg)
      | some other => .error (.WrongSecretKeyType alg other.variantName)
  | a => .error (.UnsupportedAlgorithm a)

/-- Modelled from the spec: vault multi-signature signing (family
MultiBls12_381). Fails with UnsupportedAlgorithm on family mismatch,
SecretKeyNotFound if the id is absent, and WrongSecretKeyType carrying
the requested algorithm and the stored variant name when the id resolves
to a key of a different algorithm family. -/
def multi_sign (v : LocalVault) (alg : AlgorithmId) (msg : List Nat) (kid : KeyId) :
    Except CspMultiSignatureError CspSignature :=
  match alg with
  | .MultiBls12_381 =>
      match v.sks.lookup kid with
      | none => .error (.SecretKeyNotFound alg kid)
      | some (.MultiBls12_381 sk) => .ok (multi_bls_sign sk msg)
      | some other => .error (.WrongSecretKeyType alg other.variantName)
  | a => .error (.UnsupportedAlgorithm a)

/-- Modelled from the spec: wire encoding of a sign request forwarded by
the remote vault stub over the interprocess channel; one request per
CspVault operation, carrying the algorithm discriminant, the key id and
the message. -/
def encodeSignRequest (alg : AlgorithmId) (msg : List Nat) (kid : KeyId) : List Nat :=
  alg.as_u8 :: kid :: msg

/-- Modelled from the spec: decoding of a sign request on the vault-server
side of the interprocess channel. -/
def decodeSignRequest (w : List Nat) : Option (AlgorithmId × List Nat × KeyId) :=
  match w with
  | a :: kid :: msg => some (AlgorithmId.fromNat a, msg, kid)
  | _ => none

/-- Error type surfaced by the remote vault stub: either the error of the
in-process path, or a distinct transport failure. -/
inductive RemoteSignError where
  | CspError (e : CspBasicSignatureError)
  | TransientInternalError (internal_error : String)
deriving DecidableEq, Repr

/-- Modelled from the spec: the remote vault stub forwards each sign call
as one request over the channel; the server applies the identical
operation semantics of the local vault and the response preserves exact
error-variant and payload semantics. -/
def remote_sign (v : LocalVault) (alg : AlgorithmId) (msg : List Nat) (kid : KeyId) :
    Except RemoteSignError CspSignature :=
  match decodeSignRequest (encodeSignRequest alg msg kid) with
  | none => .error (.TransientInternalError "malformed request")
  | some (a, m, k) =>
      match sign v a m k with
      | .ok sig => .ok sig
      | .error e => .error (.CspError e)

/-- A public key protobuf entry of the node public-key file: a declared
algorithm discriminant plus opaque key bytes. -/
structure PublicKeyProto where
  algorithm : Nat
  key_value : List Nat
deriving DecidableEq, Repr

/-- An X.509 certificate entry of the node public-key file. -/
structure X509PublicKeyCert where
  certificate_der : List Nat
deriving DecidableEq, Repr

/-- NodePublicKeys: the snapshot of the five designated key roles read
from the node public-key file, from ic_protobuf NodePublicKeys as used in
lib.rs and the src tests of CurrentNodePublicKeys. -/
structure NodePublicKeys where
  node_signing_pk : Option PublicKeyProto
  committee_signing_pk : Option PublicKeyProto
  tls_certificate : Option X509PublicKeyCert
  dkg_dealing_encryption_pk : Option PublicKeyProto
  idkg_dealing_encryption_pk : Option PublicKeyProto
deriving DecidableEq, Repr

/-- The Default of NodePublicKeys: every role absent. -/
def NodePublicKeys.default : NodePublicKeys :=
  ⟨none, none, none, none, none⟩

/-- Modelled from the spec: CspPublicKey::try_from on a public key proto
decodes the bytes under the declared algorithm; it succeeds exactly when
the declared algorithm is a supported basic-signature algorithm with the
right key length (Ed25519 with 32 key bytes, MultiBls12_381 with 96 key
bytes, going by the tagged-union variants in use). -/
def cspPublicKeyTryFrom (p : PublicKeyProto) : Except String CspPublicKey :=
  match AlgorithmId.fromNat p.algorithm with
  | .Ed25519 =>
      if p.key_value.length = 32 then
        .ok (CspPublicKey.Ed25519 (Nat.ofDigits 256 p.key_value))
      else .error "MalformedPublicKey"
  | .MultiBls12_381 =>
      if p.key_value.length = 96 then
        .ok (CspPublicKey.MultiBls12_381 (Nat.ofDigits 256 p.key_value))
      else .error "MalformedPublicKey"
  | _ => .error "AlgorithmNotSupported"

/-- Modelled from the spec: a forward-secure (DKG dealing) encryption
public key. -/
structure CspFsEncryptionPublicKey where
  bytes : Nat
deriving DecidableEq, Repr

/-- Modelled from the spec: CspFsEncryptionPublicKey::try_from on a public
key proto decodes the bytes under the declared algorithm; it succeeds
exactly when the declared algorithm is Groth20_Bls12_381 with the right
key length (48 bytes, a G1 point). -/
def cspFsEncryptionPublicKeyTryFrom (p : PublicKeyProto) :
    Except String CspFsEncryptionPublicKey :=
  match AlgorithmId.fromNat p.algorithm with
  | .Groth20_Bls12_381 =>
      if p.key_value.length = 48 then
        .ok ⟨Nat.ofDigits 256 p.key_value⟩
      else .error "MalformedPublicKey"
  | _ => .error "UnknownAlgorithm"

/-- Modelled from the spec: KeyId derivation from a forward-secure
encryption public key, deterministic and injective. -/
def keyIdFromFsPk (pk : CspFsEncryptionPublicKey) : KeyId :=
  pk.bytes

/-- PublicKeyData: the validated snapshot held by the Csp facade,
embedding the struct of lib.rs. -/
structure PublicKeyData where
  node_public_keys : NodePublicKeys
deriving DecidableEq, Repr

/-- PublicKeyData::try_from of lib.rs: checks that the node signing public
key, when present, decodes as a CspPublicKey, and that the DKG dealing
encryption public key, when present, decodes as a
CspFsEncryptionPublicKey; no other role is checked. -/
def PublicKeyData.tryFrom (npk : NodePublicKeys) : Except String PublicKeyData :=
  match npk.node_signing_pk.map cspPublicKeyTryFrom with
  | some (.error _) =>
      .error "Unsupported public key proto as node signing public key"
  | _ =>
      match npk.dkg_dealing_encryption_pk.map cspFsEncryptionPublicKeyTryFrom with
      | some (.error _) =>
          .error "Unsupported public key proto as dkg dealing encryption public key"
      | _ => .ok ⟨npk⟩

/-- The Csp facade state relevant to the embedded claims: the validated
public key data (the vault handle and logger carry no claim-relevant
state). -/
structure Csp where
  public_key_data : PublicKeyData
deriving DecidableEq, Repr

/-- A panic at construction, modelled as an error value: the embedded Csp
constructors return Except PanicReason Csp where the source panics. -/
inductive PanicReason where
  | MissingTokioRuntimeHandle
  | CouldNotConnectToVault (socket_path : String) (e : String)
  | CorruptSecretKeyStore (filename : String) (e : String)
  | InvalidNodePublicKeys (e : String)
deriving DecidableEq, Repr

/-- SKS_DATA_FILENAME of lib.rs: the node secret-key store file name. -/
def SKS_DATA_FILENAME : String := "sks_data.pb"

/-- CANISTER_SKS_DATA_FILENAME of lib.rs: the canister secret-key store
file name. -/
def CANISTER_SKS_DATA_FILENAME : String := "canister_sks_data.pb"

/-- Result::unwrap_or_default on the outcome of read_node_public_keys:
any read failure, whether the file is absent or unreadable or undecodable
at the file level, yields the empty default NodePublicKeys. -/
def unwrapOrDefault (r : Except String NodePublicKeys) : NodePublicKeys :=
  match r with
  | .ok npk => npk
  | .error _ => NodePublicKeys.default

/-- Csp::csp_with of lib.rs: reads the node public keys, falling back to
the empty default when the read fails for any reason
(read_node_public_keys(pk_path).unwrap_or_default()), then validates them
via PublicKeyData::try_from, panicking on validation failure. The result
of the external read_node_public_keys call is passed in as an argument. -/
def csp_with (readResult : Except String NodePublicKeys) : Except PanicReason Csp :=
  match PublicKeyData.tryFrom (unwrapOrDefault readResult) with
  | .ok pkd => .ok ⟨pkd⟩
  | .error e => .error (.InvalidNodePublicKeys e)

/-- The vault backend selector of the crypto config, from ic_config as
used in lib.rs. -/
inductive CspVaultType where
  | InReplica
  | UnixSocket (socket_path : String)
deriving DecidableEq, Repr

/-- A tokio runtime handle, opaque at this level. -/
structure TokioRuntimeHandle where
  id : Nat
deriving DecidableEq, Repr

/-- Csp::new of lib.rs: with vault type InReplica it opens the node
secret-key store file and the canister secret-key store file via the
external ProtoSecretKeyStore::open (no runtime handle required; per the
spec the open is fatal on a present-but-undecodable store file, modelled
as an error result of the openStore argument), builds the local vault and
proceeds to csp_with; with vault type UnixSocket it first unwraps the
runtime handle (panicking when it is absent), then connects to the remote
vault (panicking when the connection fails), then proceeds to csp_with,
opening no local store. The results of the external
ProtoSecretKeyStore::open calls, of the RemoteCspVault::new connection
and of read_node_public_keys are passed in as arguments. -/
def cspNew (vaultType : CspVaultType) (tokioRuntimeHandle : Option TokioRuntimeHandle)
    (openStore : String → Except String SecretKeyStore)
    (connectResult : String → Except String Unit)
    (readResult : Except String NodePublicKeys) : Except PanicReason Csp :=
  match vaultType with
  | .InReplica =>
      match openStore SKS_DATA_FILENAME with
      | .error e => .error (.CorruptSecretKeyStore SKS_DATA_FILENAME e)
      | .ok _ =>
          match openStore CANISTER_SKS_DATA_FILENAME with
          | .error e => .error (.CorruptSecretKeyStore CANISTER_SKS_DATA_FILENAME e)
          | .ok _ => csp_with readResult
  | .UnixSocket socket_path =>
      match tokioRuntimeHandle with
      | none => .error .MissingTokioRuntimeHandle
      | some _ =>
          match connectResult socket_path with
          | .error e => .error (.CouldNotConnectToVault socket_path e)
          | .ok _ => csp_with readResult

/-- Csp::dkg_dealing_encryption_key_id of lib.rs: unwraps the DKG dealing
encryption public key from the loaded PublicKeyData (panicking when it is
absent), decodes it as a forward-secure encryption public key (panicking
when decoding fails), and derives the KeyId from the decoded key. Panics
are modelled as error values. -/
def dkg_dealing_encryption_key_id (c : Csp) : Except String KeyId :=
  match c.public_key_data.node_public_keys.dkg_dealing_encryption_pk with
  | none => .error "Missing dkg dealing encryption key id"
  | some pk =>
      match cspFsEncryptionPublicKeyTryFrom pk with
      | .ok fspk => .ok (keyIdFromFsPk fspk)
      | .error _ =>
          .error "Unsupported public key proto as dkg dealing encryption public key."

/-- A lock-acquisition latency observation emitted to the metrics sink:
the lock name, the access kind and an opaque duration. -/
structure Observation where
  lock_name : String
  access : String
deriving DecidableEq, Repr

/-- The metrics sink state: the list of observations received so far. -/
structure MetricsState where
  observations : List Observation
deriving DecidableEq, Repr

/-- CspRwLock of lib.rs: a read-write lock wrapper carrying a resource
name and a metrics handle. The underlying RwLock content is modelled
directly as the protected value. -/
structure CspRwLock (T : Type) where
  name : String
  content : T

/-- CspRwLock::new of lib.rs. -/
def CspRwLock.new {T : Type} (content : T) (lock_name : String) : CspRwLock T :=
  ⟨lock_name, content⟩

/-- CspRwLock::new_for_rng of lib.rs: names the lock csprng. -/
def CspRwLock.new_for_rng {T : Type} (content : T) : CspRwLock T :=
  CspRwLock.new content "csprng"

/-- CspRwLock::new_for_sks of lib.rs: names the lock secret_key_store. -/
def CspRwLock.new_for_sks {T : Type} (content : T) : CspRwLock T :=
  CspRwLock.new content "secret_key_store"

/-- CspRwLock::new_for_csks of lib.rs: names the lock
canister_secret_key_store. -/
def CspRwLock.new_for_csks {T : Type} (content : T) : CspRwLock T :=
  CspRwLock.new content "canister_secret_key_store"

/-- CspRwLock::write of lib.rs: acquires the underlying write guard, then
observes the acquisition duration on the metrics sink (tagged with the
lock name and the access kind write) before returning the guard. The
returned guard is the protected content; the metrics sink is threaded as
state. -/
def CspRwLock.write {T : Type} (l : CspRwLock T) (m : MetricsState) :
    T × MetricsState :=
  (l.content, ⟨m.observations ++ [⟨l.name, "write"⟩]⟩)

/-- CspRwLock::read of lib.rs: acquires the underlying read guard, then
observes the acquisition duration on the metrics sink (tagged with the
lock name and the access kind read) before returning the guard. -/
def CspRwLock.read {T : Type} (l : CspRwLock T) (m : MetricsState) :
    T × MetricsState :=
  (l.content, ⟨m.observations ++ [⟨l.name, "read"⟩]⟩)

/-- True exactly when an Except value is a success. -/
def exceptOk {ε α : Type} : Except ε α → Bool
  | .ok _ => true
  | .error _ => false

/-- A successful store insertion makes the inserted key the one found
under its id. -/
theorem SecretKeyStore.lookup_insert_ok (s : SecretKeyStore) (kid : KeyId)
    (k : CspSecretKey) (s1 : SecretKeyStore)
    (h : s.insert kid k = Except.ok s1) : s1.lookup kid = some k := by
  unfold SecretKeyStore.insert at h
  split at h
  · injection h with h1
    subst h1
    simp [SecretKeyStore.lookup, List.lookup]
  · rename_i ex hl
    split at h
    · rename_i he
      injection h with h1
      subst h1
      rw [hl, he]
    · exact Except.noConfusion h

/-- The integer discriminant round-trips: decoding the u8 discriminant of
any algorithm id yields that algorithm id back. -/
theorem AlgorithmId.fromNat_as_u8 (a : AlgorithmId) :
    AlgorithmId.fromNat a.as_u8 = a := by
  cases a <;> rfl

/-- C1: for every algorithm identifier outside the operation's family,
key-pair generation (family Ed25519), key-pair generation with
proof-of-possession (family MultiBls12_381) and single-key signing
(family Ed25519) return UnsupportedAlgorithm carrying that identifier:
they never succeed (and, the embedding being total, never panic). -/
theorem c1_unsupported_algorithm_for_foreign_family (v : LocalVault)
    (msg : List Nat) (kid : KeyId) (alg : AlgorithmId) :
    (alg ≠ AlgorithmId.Ed25519 →
        gen_key_pair v alg =
          Except.error (CspBasicSignatureKeygenError.UnsupportedAlgorithm alg)) ∧
    (alg ≠ AlgorithmId.MultiBls12_381 →
        gen_key_pair_with_pop v alg =
          Except.error (CspMultiSignatureKeygenError.UnsupportedAlgorithm alg)) ∧
    (alg ≠ AlgorithmId.Ed25519 →
        sign v alg msg kid =
          Except.error (CspBasicSignatureError.UnsupportedAlgorithm alg)) := by
  cases alg <;> refine ⟨?_, ?_, ?_⟩ <;> intro h <;>
    first
      | rfl
      | exact absurd rfl h

/-- C1 witness: the EcdsaP256 identifier is outside every family above,
and each of the three operations rejects it with UnsupportedAlgorithm on
a concrete vault. -/
theorem c1_unsupported_algorithm_for_foreign_family_witness :
    gen_key_pair ⟨⟨[]⟩, 0⟩ AlgorithmId.EcdsaP256 =
      Except.error
        (CspBasicSignatureKeygenError.UnsupportedAlgorithm AlgorithmId.EcdsaP256) ∧
    gen_key_pair_with_pop ⟨⟨[]⟩, 0⟩ AlgorithmId.EcdsaP256 =
      Except.error
        (CspMultiSignatureKeygenError.UnsupportedAlgorithm AlgorithmId.EcdsaP256) ∧
    sign ⟨⟨[]⟩, 0⟩ AlgorithmId.EcdsaP256 [] 0 =
      Except.error
        (CspBasicSignatureError.UnsupportedAlgorithm AlgorithmId.EcdsaP256) :=
  ⟨(c1_unsupported_algorithm_for_foreign_family ⟨⟨[]⟩, 0⟩ [] 0
      AlgorithmId.EcdsaP256).1 (by decide),
   (c1_unsupported_algorithm_for_foreign_family ⟨⟨[]⟩, 0⟩ [] 0
      AlgorithmId.EcdsaP256).2.1 (by decide),
   (c1_unsupported_algorithm_for_foreign_family ⟨⟨[]⟩, 0⟩ [] 0
      AlgorithmId.EcdsaP256).2.2 (by decide)⟩

/-- C2: after generating an Ed25519 key pair, multi-signature signing with
MultiBls12_381 against the derived KeyId of the returned public key
returns WrongSecretKeyType carrying the requested algorithm and the
stored variant name Ed25519, and WrongSecretKeyType is a distinct error
variant from UnsupportedAlgorithm. -/
theorem c2_multi_sign_wrong_secret_key_type (v v1 : LocalVault)
    (pk : CspPublicKey) (msg : List Nat)
    (h : gen_key_pair v AlgorithmId.Ed25519 = Except.ok (pk, v1)) :
    multi_sign v1 AlgorithmId.MultiBls12_381 msg (keyIdFrom pk) =
      Except.error (CspMultiSignatureError.WrongSecretKeyType
        AlgorithmId.MultiBls12_381 "Ed25519") ∧
    (∀ (a b : AlgorithmId) (s : String),
      CspMultiSignatureError.WrongSecretKeyType a s ≠
        CspMultiSignatureError.UnsupportedAlgorithm b) := by
  constructor
  · simp only [gen_key_pair] at h
    cases hi : SecretKeyStore.insert v.sks
        (keyIdFrom (CspPublicKey.Ed25519 (ed25519_pub v.rng)))
        (CspSecretKey.Ed25519 v.rng) with
    | error e =>
        rw [hi] at h
        exact Except.noConfusion h
    | ok sks1 =>
        rw [hi] at h
        injection h with h1
        injection h1 with h2 h3
        subst h2
        subst h3
        have hl := SecretKeyStore.lookup_insert_ok _ _ _ _ hi
        simp only [multi_sign]
        rw [hl]
        exact rfl
  · intro a b s hcontra
    exact CspMultiSignatureError.noConfusion hcontra

/-- C2 witness: on a concrete vault with rng seed 5, the generated
Ed25519 key id rejects multi-signing with the WrongSecretKeyType error. -/
theorem c2_multi_sign_wrong_secret_key_type_witness :
    multi_sign ⟨⟨[(10, CspSecretKey.Ed25519 5)]⟩, 6⟩ AlgorithmId.MultiBls12_381
        [3, 1] (keyIdFrom (CspPublicKey.Ed25519 5)) =
      Except.error (CspMultiSignatureError.WrongSecretKeyType
        AlgorithmId.MultiBls12_381 "Ed25519") :=
  (c2_multi_sign_wrong_secret_key_type ⟨⟨[]⟩, 5⟩
    ⟨⟨[(10, CspSecretKey.Ed25519 5)]⟩, 6⟩ (CspPublicKey.Ed25519 5) [3, 1] rfl).1

/-- C3: for every message, after a successful Ed25519 key-pair
generation, signing the message with the derived KeyId of the returned
public key succeeds and the resulting signature verifies against the
returned public key. -/
theorem c3_sign_verify_round_trip (v v1 : LocalVault) (pk_bytes : Nat)
    (msg : List Nat)
    (h : gen_key_pair v AlgorithmId.Ed25519 =
        Except.ok (CspPublicKey.Ed25519 pk_bytes, v1)) :
    ∃ sig,
      sign v1 AlgorithmId.Ed25519 msg (keyIdFrom (CspPublicKey.Ed25519 pk_bytes)) =
          Except.ok sig ∧
        ed25519_verify sig msg pk_bytes = true := by
  simp only [gen_key_pair] at h
  cases hi : SecretKeyStore.insert v.sks
      (keyIdFrom (CspPublicKey.Ed25519 (ed25519_pub v.rng)))
      (CspSecretKey.Ed25519 v.rng) with
  | error e =>
      rw [hi] at h
      exact Except.noConfusion h
  | ok sks1 =>
      rw [hi] at h
      injection h with h1
      injection h1 with h2 h3
      injection h2 with h4
      subst h4
      subst h3
      have hl := SecretKeyStore.lookup_insert_ok _ _ _ _ hi
      refine ⟨ed25519_sign v.rng msg, ?_, ?_⟩
      · simp only [sign]
        rw [hl]
      · simp [ed25519_verify, ed25519_pub]

/-- C3 witness: on a concrete vault with rng seed 7, the generated key
signs the message and the signature verifies. -/
theorem c3_sign_verify_round_trip_witness :
    ∃ sig,
      sign ⟨⟨[(14, CspSecretKey.Ed25519 7)]⟩, 8⟩ AlgorithmId.Ed25519 [1, 2, 3]
          (keyIdFrom (CspPublicKey.Ed25519 7)) = Except.ok sig ∧
        ed25519_verify sig [1, 2, 3] 7 = true :=
  c3_sign_verify_round_trip ⟨⟨[]⟩, 7⟩ ⟨⟨[(14, CspSecretKey.Ed25519 7)]⟩, 8⟩ 7
    [1, 2, 3] rfl

/-- C6: signing is deterministic (a pure function of the vault state, the
algorithm, the message and the key id, so repeated calls agree), and the
remote backend returns exactly the local backend's result for identical
inputs: the same signature bytes on success and the same error variant,
wrapped in the transport-preserving CspError embedding. -/
theorem c6_sign_deterministic_and_backend_identical (v : LocalVault)
    (alg : AlgorithmId) (msg : List Nat) (kid : KeyId) :
    sign v alg msg kid = sign v alg msg kid ∧
    remote_sign v alg msg kid =
      (match sign v alg msg kid with
       | .ok sig => .ok sig
       | .error e => .error (.CspError e)) := by
  refine ⟨rfl, ?_⟩
  simp only [remote_sign, encodeSignRequest, decodeSignRequest,
    AlgorithmId.fromNat_as_u8]

/-- C7: signing with a KeyId absent from the secret-key store returns
SecretKeyNotFound and never returns a signature (the embedding is total,
so it never panics). -/
theorem c7_sign_unknown_key_id (v : LocalVault) (msg : List Nat) (kid : KeyId)
    (h : v.sks.lookup kid = none) :
    sign v AlgorithmId.Ed25519 msg kid =
      Except.error
        (CspBasicSignatureError.SecretKeyNotFound AlgorithmId.Ed25519 kid) := by
  simp only [sign]
  rw [h]

/-- C7 witness: on the empty store, signing with key id 3 fails with
SecretKeyNotFound. -/
theorem c7_sign_unknown_key_id_witness :
    sign ⟨⟨[]⟩, 0⟩ AlgorithmId.Ed25519 [9] 3 =
      Except.error
        (CspBasicSignatureError.SecretKeyNotFound AlgorithmId.Ed25519 3) :=
  c7_sign_unknown_key_id ⟨⟨[]⟩, 0⟩ [9] 3 rfl

/-- C4 counterexample: a file-level read failure (file present but
unreadable or undecodable) does not make construction fatal; csp_with
swallows it via unwrap_or_default and builds the facade with the empty
default public keys. -/
theorem c4_file_level_malformed_not_fatal_counterexample :
    csp_with (Except.error "malformed public key file") =
      Except.ok ⟨⟨NodePublicKeys.default⟩⟩ := rfl

/-- C4 amended: at Csp construction, if the node public-key file read
fails for any reason (absent, unreadable or undecodable at the file
level), the facade is built with empty default public keys; construction
is a fatal failure exactly when the read succeeds and a present key role
fails PublicKeyData validation. -/
theorem c4_construction_defaults_and_fatality (e : String)
    (npk : NodePublicKeys) :
    csp_with (Except.error e) = Except.ok ⟨⟨NodePublicKeys.default⟩⟩ ∧
    (PublicKeyData.tryFrom npk = Except.ok ⟨npk⟩ →
        csp_with (Except.ok npk) = Except.ok ⟨⟨npk⟩⟩) ∧
    (∀ err, PublicKeyData.tryFrom npk = Except.error err →
        csp_with (Except.ok npk) =
          Except.error (PanicReason.InvalidNodePublicKeys err)) := by
  refine ⟨rfl, ?_, ?_⟩
  · intro h
    simp only [csp_with, unwrapOrDefault]
    rw [h]
  · intro err h
    simp only [csp_with, unwrapOrDefault]
    rw [h]

/-- C4 witness: a concrete io error yields the default facade, and the
empty default snapshot validates and constructs. -/
theorem c4_construction_defaults_and_fatality_witness :
    csp_with (Except.error "io error") = Except.ok ⟨⟨NodePublicKeys.default⟩⟩ ∧
    csp_with (Except.ok NodePublicKeys.default) =
      Except.ok ⟨⟨NodePublicKeys.default⟩⟩ :=
  ⟨(c4_construction_defaults_and_fatality "io error" NodePublicKeys.default).1,
   (c4_construction_defaults_and_fatality "io error"
      NodePublicKeys.default).2.1 rfl⟩

/-- A NodePublicKeys snapshot whose committee signing key is present but
does not decode under any supported algorithm (declared algorithm 0). -/
def committeeKeyUndecodableNpk : NodePublicKeys :=
  ⟨none, some ⟨0, []⟩, none, none, none⟩

/-- C5 counterexample: a snapshot whose committee-signing key role is
present but undecodable still passes PublicKeyData construction, because
try_from validates only the node-signing and DKG dealing-encryption
roles. -/
theorem c5_unvalidated_role_counterexample :
    cspPublicKeyTryFrom ⟨0, []⟩ = Except.error "AlgorithmNotSupported" ∧
    PublicKeyData.tryFrom committeeKeyUndecodableNpk =
      Except.ok ⟨committeeKeyUndecodableNpk⟩ :=
  ⟨rfl, rfl⟩

/-- C5 amended: PublicKeyData construction from a NodePublicKeys snapshot
succeeds exactly when the node-signing key, if present, decodes as a
CspPublicKey and the DKG dealing-encryption key, if present, decodes as a
forward-secure encryption public key; the committee-signing, TLS
certificate and iDKG dealing-encryption roles are not validated. -/
theorem c5_try_from_validates_two_roles (npk : NodePublicKeys) :
    exceptOk (PublicKeyData.tryFrom npk) = true ↔
      ((∀ p, npk.node_signing_pk = some p →
          exceptOk (cspPublicKeyTryFrom p) = true) ∧
       (∀ p, npk.dkg_dealing_encryption_pk = some p →
          exceptOk (cspFsEncryptionPublicKeyTryFrom p) = true)) := by
  obtain ⟨ns, cs, tls, dkg, idkg⟩ := npk
  simp only [PublicKeyData.tryFrom]
  cases ns with
  | none =>
      cases dkg with
      | none => simp [exceptOk, Option.map]
      | some p =>
          cases hp : cspFsEncryptionPublicKeyTryFrom p <;>
            simp [exceptOk, Option.map, hp]
  | some q =>
      cases hq : cspPublicKeyTryFrom q with
      | error e =>
          simp [exceptOk, Option.map, hq]
      | ok c =>
          cases dkg with
          | none => simp [exceptOk, Option.map, hq]
          | some p =>
              cases hp : cspFsEncryptionPublicKeyTryFrom p <;>
                simp [exceptOk, Option.map, hq, hp]

/-- C5 witness: the empty default snapshot constructs. -/
theorem c5_try_from_validates_two_roles_witness :
    exceptOk (PublicKeyData.tryFrom NodePublicKeys.default) = true :=
  (c5_try_from_validates_two_roles NodePublicKeys.default).mpr
    ⟨fun _ h2 => Option.noConfusion h2, fun _ h2 => Option.noConfusion h2⟩

/-- A NodePublicKeys snapshot whose node signing key is present but does
not decode under any supported algorithm. -/
def nodeSigningUndecodableNpk : NodePublicKeys :=
  ⟨some ⟨0, []⟩, none, none, none, none⟩

/-- C8 counterexample: Csp::new aborts outside the two listed
misconfiguration cases: with vault type InReplica (no handle needed, no
socket involved, both secret-key store files opening cleanly) it still
panics when the loaded node public keys fail validation. -/
theorem c8_extra_panic_case_counterexample :
    cspNew CspVaultType.InReplica none (fun _ => Except.ok ⟨[]⟩)
        (fun _ => Except.ok ()) (Except.ok nodeSigningUndecodableNpk) =
      Except.error (PanicReason.InvalidNodePublicKeys
        "Unsupported public key proto as node signing public key") := rfl

/-- C8 amended: Csp::new aborts startup exactly when the vault type is
UnixSocket and no tokio runtime handle is supplied, or the vault type is
UnixSocket and the remote vault connection fails, or the vault type is
InReplica and opening either secret-key store file is fatal (a
present-but-undecodable store, per the spec contract of the external
ProtoSecretKeyStore::open), or the loaded node public keys fail
PublicKeyData validation; with InReplica no runtime handle is required. -/
theorem c8_construction_panic_characterization (vt : CspVaultType)
    (hOpt : Option TokioRuntimeHandle)
    (openStore : String → Except String SecretKeyStore)
    (connect : String → Except String Unit)
    (readR : Except String NodePublicKeys) :
    (∃ r, cspNew vt hOpt openStore connect readR = Except.error r) ↔
      ((∃ sp, vt = CspVaultType.UnixSocket sp ∧ hOpt = none) ∨
       (∃ sp th e, vt = CspVaultType.UnixSocket sp ∧ hOpt = some th ∧
          connect sp = Except.error e) ∨
       (vt = CspVaultType.InReplica ∧
         ∃ e, openStore SKS_DATA_FILENAME = Except.error e ∨
           openStore CANISTER_SKS_DATA_FILENAME = Except.error e) ∨
       (∃ err, PublicKeyData.tryFrom (unwrapOrDefault readR) =
          Except.error err)) := by
  cases vt with
  | InReplica =>
      cases ho1 : openStore SKS_DATA_FILENAME with
      | error e1 => simp [cspNew, ho1]
      | ok s1 =>
          cases ho2 : openStore CANISTER_SKS_DATA_FILENAME with
          | error e2 => simp [cspNew, ho1, ho2]
          | ok s2 =>
              simp only [cspNew, ho1, ho2, csp_with]
              cases ht : PublicKeyData.tryFrom (unwrapOrDefault readR) with
              | ok d => simp [ht, ho1, ho2]
              | error e => simp [ht, ho1, ho2]
  | UnixSocket sp =>
      cases hOpt with
      | none => simp [cspNew]
      | some th =>
          cases hc : connect sp with
          | error e => simp [cspNew, hc]
          | ok u =>
              simp only [cspNew, hc, csp_with]
              cases ht : PublicKeyData.tryFrom (unwrapOrDefault readR) with
              | ok d => simp [ht, hc]
              | error e => simp [ht, hc]

/-- C8 witness: with vault type UnixSocket and no runtime handle,
construction aborts on concrete inputs. -/
theorem c8_construction_panic_characterization_witness :
    ∃ r, cspNew (CspVaultType.UnixSocket "sock") none
        (fun _ => Except.ok ⟨[]⟩) (fun _ => Except.ok ())
        (Except.ok NodePublicKeys.default) = Except.error r :=
  (c8_construction_panic_characterization (CspVaultType.UnixSocket "sock")
      none (fun _ => Except.ok ⟨[]⟩) (fun _ => Except.ok ())
      (Except.ok NodePublicKeys.default)).mpr
    (Or.inl ⟨"sock", rfl, rfl⟩)

/-- C9 counterexample: the fixed per-resource lock names in the code are
csprng, secret_key_store and canister_secret_key_store, not rng,
node-sks and canister-sks as claimed; shown on a concrete read
acquisition of the RNG lock. -/
theorem c9_lock_names_counterexample :
    ((CspRwLock.new_for_rng 0).read ⟨[]⟩).2.observations =
        [⟨"csprng", "read"⟩] ∧
    (CspRwLock.new_for_rng 0).name = "csprng" ∧
    (CspRwLock.new_for_sks 0).name = "secret_key_store" ∧
    (CspRwLock.new_for_csks 0).name = "canister_secret_key_store" ∧
    "csprng" ≠ "rng" ∧
    "secret_key_store" ≠ "node-sks" ∧
    "canister_secret_key_store" ≠ "canister-sks" :=
  ⟨rfl, rfl, rfl, rfl, by decide, by decide, by decide⟩

/-- C9 amended: every read and write acquisition of a CspRwLock returns
the underlying protected content (full delegation) and emits exactly one
lock-acquisition observation to the metrics sink before the guard is
returned, tagged with the fixed per-resource names csprng,
secret_key_store and canister_secret_key_store for the RNG, node
secret-key store and canister secret-key store respectively. -/
theorem c9_lock_delegation_and_observation {T : Type} (content : T)
    (m : MetricsState) :
    (CspRwLock.new_for_rng content).read m =
        (content, ⟨m.observations ++ [⟨"csprng", "read"⟩]⟩) ∧
    (CspRwLock.new_for_rng content).write m =
        (content, ⟨m.observations ++ [⟨"csprng", "write"⟩]⟩) ∧
    (CspRwLock.new_for_sks content).read m =
        (content, ⟨m.observations ++ [⟨"secret_key_store", "read"⟩]⟩) ∧
    (CspRwLock.new_for_sks content).write m =
        (content, ⟨m.observations ++ [⟨"secret_key_store", "write"⟩]⟩) ∧
    (CspRwLock.new_for_csks content).read m =
        (content, ⟨m.observations ++ [⟨"canister_secret_key_store", "read"⟩]⟩) ∧
    (CspRwLock.new_for_csks content).write m =
        (content, ⟨m.observations ++ [⟨"canister_secret_key_store", "write"⟩]⟩) :=
  ⟨rfl, rfl, rfl, rfl, rfl, rfl⟩

/-- C10: dkg_dealing_encryption_key_id panics (modelled as an error)
whenever the DKG dealing-encryption public key is absent from the loaded
PublicKeyData or does not decode as a forward-secure encryption public
key, and returns the derived KeyId exactly when the key is present and
decodable. -/
theorem c10_dkg_key_id_panic_or_derive (c : Csp) :
    (c.public_key_data.node_public_keys.dkg_dealing_encryption_pk = none →
        dkg_dealing_encryption_key_id c =
          Except.error "Missing dkg dealing encryption key id") ∧
    (∀ pk, c.public_key_data.node_public_keys.dkg_dealing_encryption_pk =
        some pk →
      (∀ e, cspFsEncryptionPublicKeyTryFrom pk = Except.error e →
          dkg_dealing_encryption_key_id c =
            Except.error
              "Unsupported public key proto as dkg dealing encryption public key.") ∧
      (∀ fspk, cspFsEncryptionPublicKeyTryFrom pk = Except.ok fspk →
          dkg_dealing_encryption_key_id c =
            Except.ok (keyIdFromFsPk fspk))) := by
  refine ⟨?_, ?_⟩
  · intro h
    simp only [dkg_dealing_encryption_key_id]
    rw [h]
  · intro pk hpk
    refine ⟨?_, ?_⟩
    · intro e he
      simp only [dkg_dealing_encryption_key_id, hpk, he]
    · intro fspk hf
      simp only [dkg_dealing_encryption_key_id, hpk, hf]

/-- C10 witness: on a facade whose DKG dealing-encryption key is absent,
the key-id accessor aborts. -/
theorem c10_dkg_key_id_panic_or_derive_witness :
    dkg_dealing_encryption_key_id ⟨⟨NodePublicKeys.default⟩⟩ =
      Except.error "Missing dkg dealing encryption key id" :=
  (c10_dkg_key_id_panic_or_derive ⟨⟨NodePublicKeys.default⟩⟩).1 rfl

end CspSpec
